import Mathlib

/-!
Verification of the Monitored Resource Registry of `python-stack`
(`src/python_stack/core/utils/monitored/{enums,models,service}.py`).

Shallow embedding notes:
* The Python enums are `StrEnum`s, so each member *is* its string value;
  equality between a member and a plain string, and the `match`/`case`
  discrimination on `monitor_type`, are string comparisons.  We model each
  enum as an inductive type together with its `value : String`, and the
  `monitor_type` *argument* of the service methods as a `String` (any value
  equal to `"health"`/`"readiness"` behaves as the corresponding member).
* A value of the annotated union `HealthStatusEnum | ReadinessStatusEnum`
  is modelled by `StatusUnion`; `isinstance` corresponds to the
  constructor, while `==`/`in` on `StrEnum`s compare string values.
* Exceptions are modelled by returning `State × Option MonitoredError`:
  the returned state is the state at the point the exception was raised,
  mirroring the mutation order of the Python methods.  The four
  `ValueError` messages of the source are the four `MonitoredError`s.
* `reactivex.Subject`s are modelled by the ghost field
  `MonitoredService.subjects`: a subject created at registration is the
  pair `(identifier, kind)` it closes over, and pushing a value through it
  is a call of `handle_status_update` with that pair (see `Reachable`).
* `__init__` of `MonitoredService` assigns `_health_status` but, due to the
  typo on line 105 of `service.py` (`self._readiness_resolver = ...`),
  never assigns `_readiness_status`; the unset attribute is modelled by
  `readiness_status : Option ReadinessStatusEnum` being `none`, and
  reading it (`AttributeError`) by `get_readiness_status` returning `none`.
-/

/-- Embeds `HealthStatusEnum` of `enums.py`. -/
inductive HealthStatusEnum where
  | HEALTHY
  | UNHEALTHY
  | UNKNOWN
  | DISABLED
deriving DecidableEq, Repr

/-- The `StrEnum` string value of a `HealthStatusEnum` member. -/
def HealthStatusEnum.value : HealthStatusEnum → String
  | .HEALTHY => "healthy"
  | .UNHEALTHY => "unhealthy"
  | .UNKNOWN => "unknown"
  | .DISABLED => "disabled"

/-- The list of string values of `HealthStatusEnum` (what `x in HealthStatusEnum` checks). -/
def HealthStatusEnum.values : List String :=
  [HealthStatusEnum.HEALTHY.value, HealthStatusEnum.UNHEALTHY.value,
   HealthStatusEnum.UNKNOWN.value, HealthStatusEnum.DISABLED.value]

/-- Embeds `ReadinessStatusEnum` of `enums.py`. -/
inductive ReadinessStatusEnum where
  | READY
  | NOT_READY
  | UNKNOWN
  | DISABLED
deriving DecidableEq, Repr

/-- The `StrEnum` string value of a `ReadinessStatusEnum` member. -/
def ReadinessStatusEnum.value : ReadinessStatusEnum → String
  | .READY => "ready"
  | .NOT_READY => "not_ready"
  | .UNKNOWN => "unknown"
  | .DISABLED => "disabled"

/-- The list of string values of `ReadinessStatusEnum`. -/
def ReadinessStatusEnum.values : List String :=
  [ReadinessStatusEnum.READY.value, ReadinessStatusEnum.NOT_READY.value,
   ReadinessStatusEnum.UNKNOWN.value, ReadinessStatusEnum.DISABLED.value]

/-- Embeds `MonitorTypeEnum` of `enums.py`. -/
inductive MonitorTypeEnum where
  | HEALTH
  | READINESS
deriving DecidableEq, Repr

/-- The `StrEnum` string value of a `MonitorTypeEnum` member. -/
def MonitorTypeEnum.value : MonitorTypeEnum → String
  | .HEALTH => "health"
  | .READINESS => "readiness"

/-- Embeds `MonitorResourceTypeEnum` of `enums.py`. -/
inductive MonitorResourceTypeEnum where
  | DATABASE
  | CACHE
  | QUEUE
  | SERVICE
  | HTTP_CLIENT
  | APPLICATION
  | OTHER
deriving DecidableEq, Repr

/-- A runtime value of the union type `HealthStatusEnum | ReadinessStatusEnum`:
the constructor records which enum class the member belongs to (`isinstance`). -/
inductive StatusUnion where
  | health (s : HealthStatusEnum)
  | readiness (s : ReadinessStatusEnum)
deriving DecidableEq, Repr

/-- The `StrEnum` string value of a status member (what `==` compares). -/
def StatusUnion.value : StatusUnion → String
  | .health s => s.value
  | .readiness s => s.value

/-- The check `isinstance(status, HealthStatusEnum)`. -/
def StatusUnion.isHealthInstance : StatusUnion → Bool
  | .health _ => true
  | .readiness _ => false

/-- The check `isinstance(status, ReadinessStatusEnum)`. -/
def StatusUnion.isReadinessInstance : StatusUnion → Bool
  | .health _ => false
  | .readiness _ => true

/-- Embeds `MonitoredResource` of `models.py` (the two subject fields are modelled
by the ghost field `MonitoredService.subjects` of the service). -/
structure MonitoredResource where
  types : List MonitorTypeEnum
  resource_type : MonitorResourceTypeEnum
  identifier : String
  health_status : Option StatusUnion
  readiness_status : Option StatusUnion
deriving DecidableEq, Repr

/-- Embeds `MonitoredStatusUpdate` of `models.py`; `monitor_type` is a string,
per the `StrEnum` identification of members and their values. -/
structure MonitoredStatusUpdate where
  identifier : String
  monitor_type : String
  status : StatusUnion
deriving DecidableEq, Repr

/-- The four `ValueError`s raised by `service.py`, by their messages. -/
inductive MonitoredError where
  | invalidMonitorKind
  | statusKindMismatch
  | duplicateRegistration
  | unknownResource
deriving DecidableEq, Repr

/-- Lookup in an insertion-ordered dict `dict[str, MonitoredResource]`. -/
def lookupRes : List (String × MonitoredResource) → String → Option MonitoredResource
  | [], _ => none
  | (k, v) :: rest, id => if k = id then some v else lookupRes rest id

/-- Assignment `d[key] = v` on an insertion-ordered dict: replace in place, else append. -/
def setEntry : List (String × MonitoredResource) → String → MonitoredResource →
    List (String × MonitoredResource)
  | [], id, v => [(id, v)]
  | (k, v') :: rest, id, v => if k = id then (id, v) :: rest else (k, v') :: setEntry rest id v

/-- The comparison `resource.health_status == HealthStatusEnum.UNHEALTHY`: `None` compares
unequal, a member compares by string value. -/
def isUnhealthyStatus : Option StatusUnion → Bool
  | some v => v.value == HealthStatusEnum.UNHEALTHY.value
  | none => false

/-- The comparison `resource.readiness_status == ReadinessStatusEnum.NOT_READY`. -/
def isNotReadyStatus : Option StatusUnion → Bool
  | some v => v.value == ReadinessStatusEnum.NOT_READY.value
  | none => false

/-- Embeds `HealthStatusServiceResolver.resolve` of `service.py`: default HEALTHY,
skip resources without HEALTH in `types`, break to UNHEALTHY on the first
resource whose `health_status` equals UNHEALTHY. -/
def HealthStatusServiceResolver.resolve :
    List (String × MonitoredResource) → HealthStatusEnum
  | [] => .HEALTHY
  | (_, r) :: rest =>
    if MonitorTypeEnum.HEALTH ∈ r.types then
      if isUnhealthyStatus r.health_status then .UNHEALTHY
      else HealthStatusServiceResolver.resolve rest
    else HealthStatusServiceResolver.resolve rest

/-- Embeds `ReadinessStatusServiceResolver.resolve` of `service.py`. -/
def ReadinessStatusServiceResolver.resolve :
    List (String × MonitoredResource) → ReadinessStatusEnum
  | [] => .READY
  | (_, r) :: rest =>
    if MonitorTypeEnum.READINESS ∈ r.types then
      if isNotReadyStatus r.readiness_status then .NOT_READY
      else ReadinessStatusServiceResolver.resolve rest
    else ReadinessStatusServiceResolver.resolve rest

/-- State of a `MonitoredService` instance.  `readiness_status = none` models
the attribute `_readiness_status` not existing (reading raises
`AttributeError`).  `subjects` is the ghost list of the `(identifier, kind)`
pairs the subjects created so far close over. -/
structure MonitoredService where
  monitored_resources : List (String × MonitoredResource)
  health_status : HealthStatusEnum
  readiness_status : Option ReadinessStatusEnum
  subjects : List (String × MonitorTypeEnum)
deriving DecidableEq, Repr

/-- Embeds `MonitoredService.__init__`: it sets `_health_status = UNKNOWN`, but the
typo `self._readiness_resolver = ReadinessStatusEnum.UNKNOWN` leaves
`_readiness_status` unset. -/
def MonitoredService.init : MonitoredService :=
  { monitored_resources := []
    health_status := HealthStatusEnum.UNKNOWN
    readiness_status := none
    subjects := [] }

/-- Embeds `get_health_status`. -/
def MonitoredService.get_health_status (s : MonitoredService) : HealthStatusEnum :=
  s.health_status

/-- Embeds `get_readiness_status`; `none` is the `AttributeError` on the unset
attribute. -/
def MonitoredService.get_readiness_status (s : MonitoredService) :
    Option ReadinessStatusEnum :=
  s.readiness_status

/-- Embeds `_calculate_health_status`. -/
def MonitoredService.calculate_health_status (s : MonitoredService) : MonitoredService :=
  { s with health_status := HealthStatusServiceResolver.resolve s.monitored_resources }

/-- Embeds `_calculate_readiness_status`. -/
def MonitoredService.calculate_readiness_status (s : MonitoredService) : MonitoredService :=
  let agg := ReadinessStatusServiceResolver.resolve s.monitored_resources
  { s with readiness_status := some agg }

/-- Embeds `_validate_association_of_type_and_status`: a `match` on `monitor_type`
(string comparison with the member values), then
`status not in Enum or not isinstance(status, Enum)`.  Returns the
discriminated kind on success. -/
def MonitoredService.validate_association_of_type_and_status
    (monitor_type : String) (status : StatusUnion) :
    Except MonitoredError MonitorTypeEnum :=
  if monitor_type = MonitorTypeEnum.HEALTH.value then
    if !(HealthStatusEnum.values.contains status.value) || !status.isHealthInstance then
      .error .statusKindMismatch
    else .ok .HEALTH
  else if monitor_type = MonitorTypeEnum.READINESS.value then
    if !(ReadinessStatusEnum.values.contains status.value) || !status.isReadinessInstance then
      .error .statusKindMismatch
    else .ok .READINESS
  else .error .invalidMonitorKind

/-- Embeds `_handle_status_update`: validate, look the resource up, then mutate the
status field of the matching kind and recompute that kind's aggregate. -/
def MonitoredService.handle_status_update (s : MonitoredService)
    (u : MonitoredStatusUpdate) : MonitoredService × Option MonitoredError :=
  match MonitoredService.validate_association_of_type_and_status u.monitor_type u.status with
  | .error e => (s, some e)
  | .ok k =>
    match lookupRes s.monitored_resources u.identifier with
    | none => (s, some .unknownResource)
    | some r =>
      match k with
      | .HEALTH =>
        let r' := { r with health_status := some u.status }
        let s' := { s with monitored_resources := setEntry s.monitored_resources u.identifier r' }
        (MonitoredService.calculate_health_status s', none)
      | .READINESS =>
        let r' := { r with readiness_status := some u.status }
        let s' := { s with monitored_resources := setEntry s.monitored_resources u.identifier r' }
        (MonitoredService.calculate_readiness_status s', none)

/-- The `set.add` call on the `types` set of a resource. -/
def addType (k : MonitorTypeEnum) (ts : List MonitorTypeEnum) : List MonitorTypeEnum :=
  if k ∈ ts then ts else ts ++ [k]

/-- Embeds `register_monitored_resource`: validate; reject a duplicate
`(identifier, kind)`; create or extend the resource; create the subject;
set the initial status; store the resource; emit the initial status through
the subject (a synchronous `handle_status_update` call). -/
def MonitoredService.register_monitored_resource (s : MonitoredService)
    (monitor_type : String) (resource_type : MonitorResourceTypeEnum)
    (identifier : String) (initial_status : StatusUnion) :
    MonitoredService × Option MonitoredError :=
  match MonitoredService.validate_association_of_type_and_status monitor_type initial_status with
  | .error e => (s, some e)
  | .ok k =>
    let resource? := lookupRes s.monitored_resources identifier
    if (match resource? with
        | some r => decide (k ∈ r.types)
        | none => false) then
      (s, some .duplicateRegistration)
    else
      let r : MonitoredResource :=
        match resource? with
        | some r => r
        | none =>
          { types := []
            resource_type := resource_type
            identifier := identifier
            health_status := none
            readiness_status := none }
      let r := { r with types := addType k r.types }
      let s₁ := { s with subjects := s.subjects ++ [(identifier, k)] }
      let r :=
        match k with
        | .HEALTH => { r with health_status := some initial_status }
        | .READINESS => { r with readiness_status := some initial_status }
      let s₂ := { s₁ with monitored_resources := setEntry s₁.monitored_resources identifier r }
      MonitoredService.handle_status_update s₂
        { identifier := identifier, monitor_type := monitor_type, status := initial_status }

/-- One external interaction with the service: a `register` call or a direct
delivery of a status update to the internal handler. -/
inductive MonitorStep where
  | reg (monitor_type : String) (resource_type : MonitorResourceTypeEnum)
      (identifier : String) (initial_status : StatusUnion)
  | push (identifier : String) (monitor_type : String) (status : StatusUnion)
deriving DecidableEq, Repr

/-- The monitor-kind string an interaction carries. -/
def MonitorStep.kindStr : MonitorStep → String
  | .reg mt _ _ _ => mt
  | .push _ mt _ => mt

/-- Run one interaction. -/
def applyStep (s : MonitoredService) : MonitorStep → MonitoredService × Option MonitoredError
  | .reg mt rt id st => s.register_monitored_resource mt rt id st
  | .push id mt st =>
    s.handle_status_update { identifier := id, monitor_type := mt, status := st }

/-- Run a sequence of interactions, keeping the state left by each
(raised errors propagate to the caller, the state at the raise remains). -/
def runSteps (s : MonitoredService) : List MonitorStep → MonitoredService
  | [] => s
  | st :: rest => runSteps (applyStep s st).1 rest

/-- No interaction of the trace is a successful HEALTH-kind registration or
HEALTH-kind status update, evaluated along the run from `s`. -/
def noSuccessfulHealthStep (s : MonitoredService) : List MonitorStep → Bool
  | [] => true
  | st :: rest =>
    !(st.kindStr == MonitorTypeEnum.HEALTH.value && ((applyStep s st).2).isNone) &&
      noSuccessfulHealthStep (applyStep s st).1 rest

/-- States reachable from a fresh service through the public surface:
`register` calls with arbitrary arguments, and pushes of arbitrary status
values through subjects obtained from registration (a subject wraps the
pushed value with the `(identifier, kind)` pair it was created for). -/
inductive MonitoredService.Reachable : MonitoredService → Prop where
  | init : MonitoredService.Reachable MonitoredService.init
  | reg (s : MonitoredService) (mt : String) (rt : MonitorResourceTypeEnum)
      (id : String) (st : StatusUnion) :
      MonitoredService.Reachable s →
      MonitoredService.Reachable (s.register_monitored_resource mt rt id st).1
  | push (s : MonitoredService) (id : String) (k : MonitorTypeEnum) (st : StatusUnion) :
      MonitoredService.Reachable s → (id, k) ∈ s.subjects →
      MonitoredService.Reachable
        (s.handle_status_update
          { identifier := id, monitor_type := k.value, status := st }).1

/-- The per-resource well-formedness stated in the data-model section of the
spec: each status field is present exactly when the matching kind is
registered, and the kind set is non-empty. -/
def goodResource (r : MonitoredResource) : Prop :=
  (r.health_status.isSome = true ↔ MonitorTypeEnum.HEALTH ∈ r.types) ∧
  (r.readiness_status.isSome = true ↔ MonitorTypeEnum.READINESS ∈ r.types) ∧
  r.types ≠ []

/-- The strengthened induction invariant: every stored resource is
well-formed, and every issued subject points at a stored resource that
carries the subject's kind. -/
def InvS (s : MonitoredService) : Prop :=
  (∀ id r, lookupRes s.monitored_resources id = some r → goodResource r) ∧
  (∀ q ∈ s.subjects, ∃ r, lookupRes s.monitored_resources q.1 = some r ∧ q.2 ∈ r.types)

/-- The registry state after registering `("db1", HEALTH, DATABASE, HEALTHY)`
on a fresh service (used for concrete scenarios). -/
def db1HealthyService : MonitoredService :=
  (MonitoredService.init.register_monitored_resource MonitorTypeEnum.HEALTH.value MonitorResourceTypeEnum.DATABASE "db1" (StatusUnion.health .HEALTHY)).1

/-! ### Helper lemmas: dict operations -/

deriving instance DecidableEq for Except

theorem lookupRes_setEntry_self (rs : List (String × MonitoredResource)) (id : String)
    (r : MonitoredResource) : lookupRes (setEntry rs id r) id = some r := by
  induction rs with
  | nil => simp [setEntry, lookupRes]
  | cons p rest ih =>
    obtain ⟨k, v⟩ := p
    by_cases h : k = id
    · simp [setEntry, h, lookupRes]
    · simp [setEntry, h, lookupRes, ih]

theorem lookupRes_setEntry_ne (rs : List (String × MonitoredResource)) (id id' : String)
    (r : MonitoredResource) (hne : id' ≠ id) :
    lookupRes (setEntry rs id r) id' = lookupRes rs id' := by
  induction rs with
  | nil =>
    simp only [setEntry, lookupRes]
    rw [if_neg (fun h => hne h.symm)]
  | cons p rest ih =>
    obtain ⟨k, v⟩ := p
    by_cases h : k = id
    · subst h
      simp only [setEntry, if_pos rfl, lookupRes]
      rw [if_neg (fun h => hne h.symm), if_neg (fun h => hne h.symm)]
    · simp only [setEntry, if_neg h, lookupRes, ih]

theorem setEntry_setEntry (rs : List (String × MonitoredResource)) (id : String)
    (r r' : MonitoredResource) : setEntry (setEntry rs id r) id r' = setEntry rs id r' := by
  induction rs with
  | nil => simp [setEntry]
  | cons p rest ih =>
    obtain ⟨k, v⟩ := p
    by_cases h : k = id
    · simp [setEntry, h]
    · simp [setEntry, h, ih]

/-! ### Helper lemmas: validation -/

theorem validate_ok_iff (mt : String) (st : StatusUnion) (k : MonitorTypeEnum) :
    MonitoredService.validate_association_of_type_and_status mt st = .ok k ↔
      ((mt = MonitorTypeEnum.HEALTH.value ∧ k = .HEALTH ∧ st.isHealthInstance = true) ∨
       (mt = MonitorTypeEnum.READINESS.value ∧ k = .READINESS ∧ st.isReadinessInstance = true)) := by
  by_cases h1 : mt = MonitorTypeEnum.HEALTH.value
  · subst h1
    cases st with
    | health hs => cases hs <;> cases k <;> decide
    | readiness rs => cases rs <;> cases k <;> decide
  · by_cases h2 : mt = MonitorTypeEnum.READINESS.value
    · subst h2
      cases st with
      | health hs => cases hs <;> cases k <;> decide
      | readiness rs => cases rs <;> cases k <;> decide
    · unfold MonitoredService.validate_association_of_type_and_status
      rw [if_neg h1, if_neg h2]
      simp [h1, h2]

theorem validate_error_cases (mt : String) (st : StatusUnion) (e : MonitoredError) :
    MonitoredService.validate_association_of_type_and_status mt st = .error e →
      e = .statusKindMismatch ∨ e = .invalidMonitorKind := by
  by_cases h1 : mt = MonitorTypeEnum.HEALTH.value
  · subst h1
    cases st with
    | health hs => cases hs <;> cases e <;> decide
    | readiness rs => cases rs <;> cases e <;> decide
  · by_cases h2 : mt = MonitorTypeEnum.READINESS.value
    · subst h2
      cases st with
      | health hs => cases hs <;> cases e <;> decide
      | readiness rs => cases rs <;> cases e <;> decide
    · intro h
      unfold MonitoredService.validate_association_of_type_and_status at h
      rw [if_neg h1, if_neg h2] at h
      injection h with h'
      exact Or.inr h'.symm

/-! ### Helper lemmas: shapes of `handle_status_update` -/

theorem handle_raise_eq (s s' : MonitoredService) (u : MonitoredStatusUpdate)
    (e : MonitoredError) (h : s.handle_status_update u = (s', some e)) : s' = s := by
  unfold MonitoredService.handle_status_update at h
  cases hv : MonitoredService.validate_association_of_type_and_status u.monitor_type u.status with
  | error e' =>
    rw [hv] at h
    simp at h
    exact h.1.symm
  | ok k =>
    rw [hv] at h
    cases hl : lookupRes s.monitored_resources u.identifier with
    | none =>
      rw [hl] at h
      simp at h
      exact h.1.symm
    | some r =>
      rw [hl] at h
      cases k <;> simp at h

theorem handle_ok_health_eq (s : MonitoredService) (u : MonitoredStatusUpdate)
    (r : MonitoredResource)
    (hv : MonitoredService.validate_association_of_type_and_status u.monitor_type u.status = .ok .HEALTH)
    (hl : lookupRes s.monitored_resources u.identifier = some r) :
    s.handle_status_update u = ({ monitored_resources := setEntry s.monitored_resources u.identifier { r with health_status := some u.status }, health_status := HealthStatusServiceResolver.resolve (setEntry s.monitored_resources u.identifier { r with health_status := some u.status }), readiness_status := s.readiness_status, subjects := s.subjects }, none) := by
  unfold MonitoredService.handle_status_update
  rw [hv, hl]
  rfl

theorem handle_ok_readiness_eq (s : MonitoredService) (u : MonitoredStatusUpdate)
    (r : MonitoredResource)
    (hv : MonitoredService.validate_association_of_type_and_status u.monitor_type u.status = .ok .READINESS)
    (hl : lookupRes s.monitored_resources u.identifier = some r) :
    s.handle_status_update u = ({ monitored_resources := setEntry s.monitored_resources u.identifier { r with readiness_status := some u.status }, health_status := s.health_status, readiness_status := some (ReadinessStatusServiceResolver.resolve (setEntry s.monitored_resources u.identifier { r with readiness_status := some u.status })), subjects := s.subjects }, none) := by
  unfold MonitoredService.handle_status_update
  rw [hv, hl]
  rfl

/-! ### Helper lemmas: shapes of `register_monitored_resource` -/

theorem register_ok_fresh_health_eq (s : MonitoredService) (mt : String)
    (rt : MonitorResourceTypeEnum) (id : String) (st : StatusUnion)
    (hv : MonitoredService.validate_association_of_type_and_status mt st = .ok .HEALTH)
    (hl : lookupRes s.monitored_resources id = none) :
    s.register_monitored_resource mt rt id st = ({ monitored_resources := setEntry s.monitored_resources id { types := [.HEALTH], resource_type := rt, identifier := id, health_status := some st, readiness_status := none }, health_status := HealthStatusServiceResolver.resolve (setEntry s.monitored_resources id { types := [.HEALTH], resource_type := rt, identifier := id, health_status := some st, readiness_status := none }), readiness_status := s.readiness_status, subjects := s.subjects ++ [(id, .HEALTH)] }, none) := by
  unfold MonitoredService.register_monitored_resource
  rw [hv, hl]
  simp only [addType, List.not_mem_nil, if_false]
  unfold MonitoredService.handle_status_update
  simp only []
  rw [hv, lookupRes_setEntry_self]
  simp [setEntry_setEntry, MonitoredService.calculate_health_status]

theorem register_ok_fresh_readiness_eq (s : MonitoredService) (mt : String)
    (rt : MonitorResourceTypeEnum) (id : String) (st : StatusUnion)
    (hv : MonitoredService.validate_association_of_type_and_status mt st = .ok .READINESS)
    (hl : lookupRes s.monitored_resources id = none) :
    s.register_monitored_resource mt rt id st = ({ monitored_resources := setEntry s.monitored_resources id { types := [.READINESS], resource_type := rt, identifier := id, health_status := none, readiness_status := some st }, health_status := s.health_status, readiness_status := some (ReadinessStatusServiceResolver.resolve (setEntry s.monitored_resources id { types := [.READINESS], resource_type := rt, identifier := id, health_status := none, readiness_status := some st })), subjects := s.subjects ++ [(id, .READINESS)] }, none) := by
  unfold MonitoredService.register_monitored_resource
  rw [hv, hl]
  simp only [addType, List.not_mem_nil, if_false]
  unfold MonitoredService.handle_status_update
  simp only []
  rw [hv, lookupRes_setEntry_self]
  simp [setEntry_setEntry, MonitoredService.calculate_readiness_status]

theorem register_ok_merge_health_eq (s : MonitoredService) (mt : String)
    (rt : MonitorResourceTypeEnum) (id : String) (st : StatusUnion) (base : MonitoredResource)
    (hv : MonitoredService.validate_association_of_type_and_status mt st = .ok .HEALTH)
    (hl : lookupRes s.monitored_resources id = some base)
    (hk : MonitorTypeEnum.HEALTH ∉ base.types) :
    s.register_monitored_resource mt rt id st = ({ monitored_resources := setEntry s.monitored_resources id { base with types := base.types ++ [.HEALTH], health_status := some st }, health_status := HealthStatusServiceResolver.resolve (setEntry s.monitored_resources id { base with types := base.types ++ [.HEALTH], health_status := some st }), readiness_status := s.readiness_status, subjects := s.subjects ++ [(id, .HEALTH)] }, none) := by
  unfold MonitoredService.register_monitored_resource
  rw [hv, hl]
  simp only [addType, hk, if_false, decide_eq_true_eq, decide_eq_false_iff_not]
  unfold MonitoredService.handle_status_update
  simp only []
  rw [hv, lookupRes_setEntry_self]
  simp [setEntry_setEntry, MonitoredService.calculate_health_status]

theorem register_ok_merge_readiness_eq (s : MonitoredService) (mt : String)
    (rt : MonitorResourceTypeEnum) (id : String) (st : StatusUnion) (base : MonitoredResource)
    (hv : MonitoredService.validate_association_of_type_and_status mt st = .ok .READINESS)
    (hl : lookupRes s.monitored_resources id = some base)
    (hk : MonitorTypeEnum.READINESS ∉ base.types) :
    s.register_monitored_resource mt rt id st = ({ monitored_resources := setEntry s.monitored_resources id { base with types := base.types ++ [.READINESS], readiness_status := some st }, health_status := s.health_status, readiness_status := some (ReadinessStatusServiceResolver.resolve (setEntry s.monitored_resources id { base with types := base.types ++ [.READINESS], readiness_status := some st })), subjects := s.subjects ++ [(id, .READINESS)] }, none) := by
  unfold MonitoredService.register_monitored_resource
  rw [hv, hl]
  simp only [addType, hk, if_false, decide_eq_true_eq, decide_eq_false_iff_not]
  unfold MonitoredService.handle_status_update
  simp only []
  rw [hv, lookupRes_setEntry_self]
  simp [setEntry_setEntry, MonitoredService.calculate_readiness_status]

theorem register_validate_error_eq (s : MonitoredService) (mt : String)
    (rt : MonitorResourceTypeEnum) (id : String) (st : StatusUnion) (e : MonitoredError)
    (hv : MonitoredService.validate_association_of_type_and_status mt st = .error e) :
    s.register_monitored_resource mt rt id st = (s, some e) := by
  unfold MonitoredService.register_monitored_resource
  rw [hv]

theorem register_duplicate_eq (s : MonitoredService) (mt : String)
    (rt : MonitorResourceTypeEnum) (id : String) (st : StatusUnion) (k : MonitorTypeEnum)
    (base : MonitoredResource)
    (hv : MonitoredService.validate_association_of_type_and_status mt st = .ok k)
    (hl : lookupRes s.monitored_resources id = some base)
    (hk : k ∈ base.types) :
    s.register_monitored_resource mt rt id st = (s, some .duplicateRegistration) := by
  unfold MonitoredService.register_monitored_resource
  rw [hv, hl]
  simp [hk]

theorem register_cases (s : MonitoredService) (mt : String) (rt : MonitorResourceTypeEnum)
    (id : String) (st : StatusUnion) :
    (∃ e, MonitoredService.validate_association_of_type_and_status mt st = .error e ∧
        s.register_monitored_resource mt rt id st = (s, some e)) ∨
    (∃ k base, MonitoredService.validate_association_of_type_and_status mt st = .ok k ∧
        lookupRes s.monitored_resources id = some base ∧ k ∈ base.types ∧
        s.register_monitored_resource mt rt id st = (s, some .duplicateRegistration)) ∨
    (∃ k, MonitoredService.validate_association_of_type_and_status mt st = .ok k ∧
        (s.register_monitored_resource mt rt id st).2 = none) := by
  cases hv : MonitoredService.validate_association_of_type_and_status mt st with
  | error e =>
    exact Or.inl ⟨e, rfl, register_validate_error_eq s mt rt id st e hv⟩
  | ok k =>
    cases hl : lookupRes s.monitored_resources id with
    | none =>
      refine Or.inr (Or.inr ⟨k, rfl, ?_⟩)
      cases k
      · rw [register_ok_fresh_health_eq s mt rt id st hv hl]
      · rw [register_ok_fresh_readiness_eq s mt rt id st hv hl]
    | some base =>
      by_cases hk : k ∈ base.types
      · exact Or.inr (Or.inl ⟨k, base, rfl, rfl, hk, register_duplicate_eq s mt rt id st k base hv hl hk⟩)
      · refine Or.inr (Or.inr ⟨k, rfl, ?_⟩)
        cases k
        · rw [register_ok_merge_health_eq s mt rt id st base hv hl hk]
        · rw [register_ok_merge_readiness_eq s mt rt id st base hv hl hk]

theorem register_raise_eq (s s' : MonitoredService) (mt : String)
    (rt : MonitorResourceTypeEnum) (id : String) (st : StatusUnion) (e : MonitoredError)
    (h : s.register_monitored_resource mt rt id st = (s', some e)) : s' = s := by
  rcases register_cases s mt rt id st with ⟨e', _, heq⟩ | ⟨k, base, _, _, _, heq⟩ | ⟨k, _, heq⟩
  · rw [heq] at h
    exact (Prod.mk.injEq _ _ _ _ ▸ h).1.symm
  · rw [heq] at h
    exact (Prod.mk.injEq _ _ _ _ ▸ h).1.symm
  · rw [h] at heq
    simp at heq

/-! ### Helper lemmas: resolvers -/

theorem isUnhealthyStatus_iff (o : Option StatusUnion) :
    isUnhealthyStatus o = true ↔ o = some (.health .UNHEALTHY) := by
  cases o with
  | none => simp [isUnhealthyStatus]
  | some v =>
    cases v with
    | health hs => cases hs <;> decide
    | readiness rs => cases rs <;> decide

theorem isNotReadyStatus_iff (o : Option StatusUnion) :
    isNotReadyStatus o = true ↔ o = some (.readiness .NOT_READY) := by
  cases o with
  | none => simp [isNotReadyStatus]
  | some v =>
    cases v with
    | health hs => cases hs <;> decide
    | readiness rs => cases rs <;> decide

theorem resolve_health_values (rs : List (String × MonitoredResource)) :
    HealthStatusServiceResolver.resolve rs = .HEALTHY ∨
      HealthStatusServiceResolver.resolve rs = .UNHEALTHY := by
  induction rs with
  | nil => exact Or.inl rfl
  | cons p rest ih =>
    obtain ⟨a, r⟩ := p
    unfold HealthStatusServiceResolver.resolve
    by_cases h1 : MonitorTypeEnum.HEALTH ∈ r.types
    · by_cases h2 : isUnhealthyStatus r.health_status
      · simp [h1, h2]
      · simpa [h1, h2] using ih
    · simpa [h1] using ih

theorem resolve_readiness_values (rs : List (String × MonitoredResource)) :
    ReadinessStatusServiceResolver.resolve rs = .READY ∨
      ReadinessStatusServiceResolver.resolve rs = .NOT_READY := by
  induction rs with
  | nil => exact Or.inl rfl
  | cons p rest ih =>
    obtain ⟨a, r⟩ := p
    unfold ReadinessStatusServiceResolver.resolve
    by_cases h1 : MonitorTypeEnum.READINESS ∈ r.types
    · by_cases h2 : isNotReadyStatus r.readiness_status
      · simp [h1, h2]
      · simpa [h1, h2] using ih
    · simpa [h1] using ih

theorem resolve_health_cons (a : String) (r : MonitoredResource)
    (rest : List (String × MonitoredResource)) :
    HealthStatusServiceResolver.resolve ((a, r) :: rest) =
      if MonitorTypeEnum.HEALTH ∈ r.types then
        (if isUnhealthyStatus r.health_status then .UNHEALTHY
         else HealthStatusServiceResolver.resolve rest)
      else HealthStatusServiceResolver.resolve rest := rfl

theorem resolve_readiness_cons (a : String) (r : MonitoredResource)
    (rest : List (String × MonitoredResource)) :
    ReadinessStatusServiceResolver.resolve ((a, r) :: rest) =
      if MonitorTypeEnum.READINESS ∈ r.types then
        (if isNotReadyStatus r.readiness_status then .NOT_READY
         else ReadinessStatusServiceResolver.resolve rest)
      else ReadinessStatusServiceResolver.resolve rest := rfl

theorem resolve_health_unhealthy_iff (rs : List (String × MonitoredResource)) :
    HealthStatusServiceResolver.resolve rs = .UNHEALTHY ↔
      ∃ p ∈ rs, MonitorTypeEnum.HEALTH ∈ p.2.types ∧
        p.2.health_status = some (.health .UNHEALTHY) := by
  induction rs with
  | nil => simp [HealthStatusServiceResolver.resolve]
  | cons p rest ih =>
    obtain ⟨a, r⟩ := p
    rw [resolve_health_cons]
    by_cases h1 : MonitorTypeEnum.HEALTH ∈ r.types
    · by_cases h2 : isUnhealthyStatus r.health_status
      · simp only [h1, if_true, h2]
        constructor
        · intro _
          exact ⟨(a, r), by simp, h1, (isUnhealthyStatus_iff _).mp h2⟩
        · intro _
          trivial
      · rw [if_pos h1, if_neg h2, ih]
        constructor
        · intro ⟨q, hq, hq1, hq2⟩
          exact ⟨q, by simp [hq], hq1, hq2⟩
        · intro ⟨q, hq, hq1, hq2⟩
          rcases List.mem_cons.mp hq with hq' | hq'
          · subst hq'
            exact absurd ((isUnhealthyStatus_iff _).mpr hq2) h2
          · exact ⟨q, hq', hq1, hq2⟩
    · rw [if_neg h1, ih]
      constructor
      · intro ⟨q, hq, hq1, hq2⟩
        exact ⟨q, by simp [hq], hq1, hq2⟩
      · intro ⟨q, hq, hq1, hq2⟩
        rcases List.mem_cons.mp hq with hq' | hq'
        · subst hq'
          exact absurd hq1 h1
        · exact ⟨q, hq', hq1, hq2⟩

theorem resolve_readiness_notready_iff (rs : List (String × MonitoredResource)) :
    ReadinessStatusServiceResolver.resolve rs = .NOT_READY ↔
      ∃ p ∈ rs, MonitorTypeEnum.READINESS ∈ p.2.types ∧
        p.2.readiness_status = some (.readiness .NOT_READY) := by
  induction rs with
  | nil => simp [ReadinessStatusServiceResolver.resolve]
  | cons p rest ih =>
    obtain ⟨a, r⟩ := p
    rw [resolve_readiness_cons]
    by_cases h1 : MonitorTypeEnum.READINESS ∈ r.types
    · by_cases h2 : isNotReadyStatus r.readiness_status
      · simp only [h1, if_true, h2]
        constructor
        · intro _
          exact ⟨(a, r), by simp, h1, (isNotReadyStatus_iff _).mp h2⟩
        · intro _
          trivial
      · rw [if_pos h1, if_neg h2, ih]
        constructor
        · intro ⟨q, hq, hq1, hq2⟩
          exact ⟨q, by simp [hq], hq1, hq2⟩
        · intro ⟨q, hq, hq1, hq2⟩
          rcases List.mem_cons.mp hq with hq' | hq'
          · subst hq'
            exact absurd ((isNotReadyStatus_iff _).mpr hq2) h2
          · exact ⟨q, hq', hq1, hq2⟩
    · rw [if_neg h1, ih]
      constructor
      · intro ⟨q, hq, hq1, hq2⟩
        exact ⟨q, by simp [hq], hq1, hq2⟩
      · intro ⟨q, hq, hq1, hq2⟩
        rcases List.mem_cons.mp hq with hq' | hq'
        · subst hq'
          exact absurd hq1 h1
        · exact ⟨q, hq', hq1, hq2⟩

theorem resolve_health_filter (rs : List (String × MonitoredResource)) :
    HealthStatusServiceResolver.resolve
        (rs.filter fun p => decide (MonitorTypeEnum.HEALTH ∈ p.2.types)) =
      HealthStatusServiceResolver.resolve rs := by
  induction rs with
  | nil => rfl
  | cons p rest ih =>
    obtain ⟨a, r⟩ := p
    by_cases h1 : MonitorTypeEnum.HEALTH ∈ r.types
    · rw [List.filter_cons]
      simp only [h1, decide_eq_true_eq, if_true]
      rw [resolve_health_cons, resolve_health_cons, if_pos h1, if_pos h1]
      by_cases h2 : isUnhealthyStatus r.health_status
      · rw [if_pos h2, if_pos h2]
      · rw [if_neg h2, if_neg h2, ih]
    · rw [List.filter_cons]
      simp only [h1, decide_eq_true_eq, if_false]
      rw [resolve_health_cons, if_neg h1]
      exact ih

theorem resolve_readiness_filter (rs : List (String × MonitoredResource)) :
    ReadinessStatusServiceResolver.resolve
        (rs.filter fun p => decide (MonitorTypeEnum.READINESS ∈ p.2.types)) =
      ReadinessStatusServiceResolver.resolve rs := by
  induction rs with
  | nil => rfl
  | cons p rest ih =>
    obtain ⟨a, r⟩ := p
    by_cases h1 : MonitorTypeEnum.READINESS ∈ r.types
    · rw [List.filter_cons]
      simp only [h1, decide_eq_true_eq, if_true]
      rw [resolve_readiness_cons, resolve_readiness_cons, if_pos h1, if_pos h1]
      by_cases h2 : isNotReadyStatus r.readiness_status
      · rw [if_pos h2, if_pos h2]
      · rw [if_neg h2, if_neg h2, ih]
    · rw [List.filter_cons]
      simp only [h1, decide_eq_true_eq, if_false]
      rw [resolve_readiness_cons, if_neg h1]
      exact ih

theorem handle_validate_error_eq (s : MonitoredService) (u : MonitoredStatusUpdate)
    (e : MonitoredError)
    (hv : MonitoredService.validate_association_of_type_and_status u.monitor_type u.status = .error e) :
    s.handle_status_update u = (s, some e) := by
  unfold MonitoredService.handle_status_update
  rw [hv]

theorem handle_unknown_eq (s : MonitoredService) (u : MonitoredStatusUpdate)
    (k : MonitorTypeEnum)
    (hv : MonitoredService.validate_association_of_type_and_status u.monitor_type u.status = .ok k)
    (hl : lookupRes s.monitored_resources u.identifier = none) :
    s.handle_status_update u = (s, some .unknownResource) := by
  unfold MonitoredService.handle_status_update
  rw [hv, hl]

theorem handle_not_health_preserves (s : MonitoredService) (u : MonitoredStatusUpdate)
    (hv : MonitoredService.validate_association_of_type_and_status u.monitor_type u.status ≠ .ok .HEALTH) :
    ((s.handle_status_update u).1).health_status = s.health_status := by
  cases hv2 : MonitoredService.validate_association_of_type_and_status u.monitor_type u.status with
  | error e => rw [handle_validate_error_eq s u e hv2]
  | ok k =>
    cases k with
    | HEALTH => exact absurd hv2 hv
    | READINESS =>
      cases hl : lookupRes s.monitored_resources u.identifier with
      | none => rw [handle_unknown_eq s u .READINESS hv2 hl]
      | some r => rw [handle_ok_readiness_eq s u r hv2 hl]

theorem register_not_health_preserves (s : MonitoredService) (mt : String)
    (rt : MonitorResourceTypeEnum) (id : String) (st : StatusUnion)
    (hv : MonitoredService.validate_association_of_type_and_status mt st ≠ .ok .HEALTH) :
    ((s.register_monitored_resource mt rt id st).1).health_status = s.health_status := by
  cases hv2 : MonitoredService.validate_association_of_type_and_status mt st with
  | error e => rw [register_validate_error_eq s mt rt id st e hv2]
  | ok k =>
    cases k with
    | HEALTH => exact absurd hv2 hv
    | READINESS =>
      cases hl : lookupRes s.monitored_resources id with
      | none => rw [register_ok_fresh_readiness_eq s mt rt id st hv2 hl]
      | some base =>
        by_cases hk : MonitorTypeEnum.READINESS ∈ base.types
        · rw [register_duplicate_eq s mt rt id st .READINESS base hv2 hl hk]
        · rw [register_ok_merge_readiness_eq s mt rt id st base hv2 hl hk]

/-! ### Invariant lemmas -/

theorem invS_init : InvS MonitoredService.init := by
  constructor
  · intro id r h
    simp [MonitoredService.init, lookupRes] at h
  · intro q hq
    simp [MonitoredService.init] at hq

theorem invS_register (s : MonitoredService) (mt : String) (rt : MonitorResourceTypeEnum)
    (id : String) (st : StatusUnion) (h : InvS s) :
    InvS (s.register_monitored_resource mt rt id st).1 := by
  cases hv : MonitoredService.validate_association_of_type_and_status mt st with
  | error e =>
    rw [register_validate_error_eq s mt rt id st e hv]
    exact h
  | ok k =>
    cases hl : lookupRes s.monitored_resources id with
    | none =>
      have hmain : ∀ (rnew : MonitoredResource), goodResource rnew → rnew.types = [k] →
          InvS ({ monitored_resources := setEntry s.monitored_resources id rnew, health_status := HealthStatusServiceResolver.resolve (setEntry s.monitored_resources id rnew), readiness_status := s.readiness_status, subjects := s.subjects ++ [(id, k)] } : MonitoredService) ∧
          InvS ({ monitored_resources := setEntry s.monitored_resources id rnew, health_status := s.health_status, readiness_status := some (ReadinessStatusServiceResolver.resolve (setEntry s.monitored_resources id rnew)), subjects := s.subjects ++ [(id, k)] } : MonitoredService) := by
        intro rnew hgood htypes
        have hres : ∀ id' r', lookupRes (setEntry s.monitored_resources id rnew) id' = some r' →
            goodResource r' := by
          intro id' r' h'
          by_cases hid : id' = id
          · subst hid
            rw [lookupRes_setEntry_self] at h'
            cases h'
            exact hgood
          · rw [lookupRes_setEntry_ne _ _ _ _ hid] at h'
            exact h.1 id' r' h'
        have hsub : ∀ q ∈ s.subjects ++ [(id, k)], ∃ r', lookupRes (setEntry s.monitored_resources id rnew) q.1 = some r' ∧ q.2 ∈ r'.types := by
          intro q hq
          rcases List.mem_append.mp hq with hq' | hq'
          · obtain ⟨r₀, hr₀, hm₀⟩ := h.2 q hq'
            by_cases hid : q.1 = id
            · rw [hid, hl] at hr₀
              cases hr₀
            · rw [lookupRes_setEntry_ne _ _ _ _ hid]
              exact ⟨r₀, hr₀, hm₀⟩
          · simp only [List.mem_singleton] at hq'
            subst hq'
            refine ⟨rnew, lookupRes_setEntry_self _ _ _, ?_⟩
            rw [htypes]
            exact List.mem_singleton.mpr rfl
        exact ⟨⟨hres, hsub⟩, ⟨hres, hsub⟩⟩
      cases k with
      | HEALTH =>
        rw [register_ok_fresh_health_eq s mt rt id st hv hl]
        refine (hmain { types := [.HEALTH], resource_type := rt, identifier := id, health_status := some st, readiness_status := none } ?_ rfl).1
        refine ⟨by simp, by simp, by simp⟩
      | READINESS =>
        rw [register_ok_fresh_readiness_eq s mt rt id st hv hl]
        refine (hmain { types := [.READINESS], resource_type := rt, identifier := id, health_status := none, readiness_status := some st } ?_ rfl).2
        refine ⟨by simp, by simp, by simp⟩
    | some base =>
      by_cases hk : k ∈ base.types
      · rw [register_duplicate_eq s mt rt id st k base hv hl hk]
        exact h
      · have hgoodbase : goodResource base := h.1 id base hl
        have hmain : ∀ (rnew : MonitoredResource), goodResource rnew →
            rnew.types = base.types ++ [k] →
            InvS ({ monitored_resources := setEntry s.monitored_resources id rnew, health_status := HealthStatusServiceResolver.resolve (setEntry s.monitored_resources id rnew), readiness_status := s.readiness_status, subjects := s.subjects ++ [(id, k)] } : MonitoredService) ∧
            InvS ({ monitored_resources := setEntry s.monitored_resources id rnew, health_status := s.health_status, readiness_status := some (ReadinessStatusServiceResolver.resolve (setEntry s.monitored_resources id rnew)), subjects := s.subjects ++ [(id, k)] } : MonitoredService) := by
          intro rnew hgood htypes
          have hres : ∀ id' r', lookupRes (setEntry s.monitored_resources id rnew) id' = some r' →
              goodResource r' := by
            intro id' r' h'
            by_cases hid : id' = id
            · subst hid
              rw [lookupRes_setEntry_self] at h'
              cases h'
              exact hgood
            · rw [lookupRes_setEntry_ne _ _ _ _ hid] at h'
              exact h.1 id' r' h'
          have hsub : ∀ q ∈ s.subjects ++ [(id, k)], ∃ r', lookupRes (setEntry s.monitored_resources id rnew) q.1 = some r' ∧ q.2 ∈ r'.types := by
            intro q hq
            rcases List.mem_append.mp hq with hq' | hq'
            · obtain ⟨r₀, hr₀, hm₀⟩ := h.2 q hq'
              by_cases hid : q.1 = id
              · refine ⟨rnew, by rw [hid]; exact lookupRes_setEntry_self _ _ _, ?_⟩
                rw [hid, hl] at hr₀
                cases hr₀
                rw [htypes]
                exact List.mem_append.mpr (Or.inl hm₀)
              · rw [lookupRes_setEntry_ne _ _ _ _ hid]
                exact ⟨r₀, hr₀, hm₀⟩
            · simp only [List.mem_singleton] at hq'
              subst hq'
              refine ⟨rnew, lookupRes_setEntry_self _ _ _, ?_⟩
              rw [htypes]
              exact List.mem_append.mpr (Or.inr (List.mem_singleton.mpr rfl))
          exact ⟨⟨hres, hsub⟩, ⟨hres, hsub⟩⟩
        cases k with
        | HEALTH =>
          rw [register_ok_merge_health_eq s mt rt id st base hv hl hk]
          refine (hmain { base with types := base.types ++ [.HEALTH], health_status := some st } ?_ rfl).1
          refine ⟨by simp, ?_, by simp⟩
          simp only [List.mem_append, List.mem_singleton]
          rw [show ({ base with types := base.types ++ [.HEALTH], health_status := some st } : MonitoredResource).readiness_status = base.readiness_status from rfl]
          rw [hgoodbase.2.1]
          constructor
          · intro hm
            exact Or.inl hm
          · intro hm
            rcases hm with hm | hm
            · exact hm
            · cases hm
        | READINESS =>
          rw [register_ok_merge_readiness_eq s mt rt id st base hv hl hk]
          refine (hmain { base with types := base.types ++ [.READINESS], readiness_status := some st } ?_ rfl).2
          refine ⟨?_, by simp, by simp⟩
          simp only [List.mem_append, List.mem_singleton]
          rw [show ({ base with types := base.types ++ [.READINESS], readiness_status := some st } : MonitoredResource).health_status = base.health_status from rfl]
          rw [hgoodbase.1]
          constructor
          · intro hm
            exact Or.inl hm
          · intro hm
            rcases hm with hm | hm
            · exact hm
            · cases hm

theorem monitor_value_inj (k k' : MonitorTypeEnum) (h : k.value = k'.value) : k = k' := by
  cases k <;> cases k' <;> first | rfl | (exact absurd h (by decide))

theorem validate_ok_value_eq (mt : String) (st : StatusUnion) (k : MonitorTypeEnum)
    (hv : MonitoredService.validate_association_of_type_and_status mt st = .ok k) :
    mt = k.value := by
  rcases (validate_ok_iff mt st k).mp hv with ⟨h1, h2, _⟩ | ⟨h1, h2, _⟩
  · rw [h1, h2]
  · rw [h1, h2]

theorem invS_push (s : MonitoredService) (id : String) (k : MonitorTypeEnum)
    (st : StatusUnion) (h : InvS s) (hs : (id, k) ∈ s.subjects) :
    InvS (s.handle_status_update { identifier := id, monitor_type := k.value, status := st }).1 := by
  cases hv : MonitoredService.validate_association_of_type_and_status k.value st with
  | error e =>
    rw [handle_validate_error_eq s _ e hv]
    exact h
  | ok k' =>
    have hk' : k' = k := (monitor_value_inj k k' (validate_ok_value_eq k.value st k' hv)).symm
    subst hk'
    obtain ⟨r, hr, hmem⟩ := h.2 (id, k') hs
    have hmain : ∀ (rnew : MonitoredResource), goodResource rnew → rnew.types = r.types →
        ∀ hcach rcach,
        InvS ({ monitored_resources := setEntry s.monitored_resources id rnew, health_status := hcach, readiness_status := rcach, subjects := s.subjects } : MonitoredService) := by
      intro rnew hgood htypes hcach rcach
      constructor
      · intro id' r' h'
        by_cases hid : id' = id
        · subst hid
          rw [lookupRes_setEntry_self] at h'
          cases h'
          exact hgood
        · rw [lookupRes_setEntry_ne _ _ _ _ hid] at h'
          exact h.1 id' r' h'
      · intro q hq
        obtain ⟨r₀, hr₀, hm₀⟩ := h.2 q hq
        by_cases hid : q.1 = id
        · refine ⟨rnew, by rw [hid]; exact lookupRes_setEntry_self _ _ _, ?_⟩
          rw [hid, hr] at hr₀
          cases hr₀
          rw [htypes]
          exact hm₀
        · rw [lookupRes_setEntry_ne _ _ _ _ hid]
          exact ⟨r₀, hr₀, hm₀⟩
    have hgoodr : goodResource r := h.1 id r hr
    cases k' with
    | HEALTH =>
      rw [handle_ok_health_eq s _ r hv hr]
      refine hmain { r with health_status := some st } ⟨by simpa using hmem, ?_, ?_⟩ rfl _ _
      · rw [show ({ r with health_status := some st } : MonitoredResource).readiness_status = r.readiness_status from rfl]
        exact hgoodr.2.1
      · exact hgoodr.2.2
    | READINESS =>
      rw [handle_ok_readiness_eq s _ r hv hr]
      refine hmain { r with readiness_status := some st } ⟨?_, by simpa using hmem, ?_⟩ rfl _ _
      · rw [show ({ r with readiness_status := some st } : MonitoredResource).health_status = r.health_status from rfl]
        exact hgoodr.1
      · exact hgoodr.2.2

/-! ### Claim theorems -/

/-- C1: `HealthStatusServiceResolver.resolve` returns UNHEALTHY exactly when
some resource whose kinds contain HEALTH has health_status UNHEALTHY, and
HEALTHY otherwise (so resources without HEALTH in their kinds, and UNKNOWN or
DISABLED statuses, never move the result away from HEALTHY); symmetrically
`ReadinessStatusServiceResolver.resolve` returns NOT_READY exactly when some
readiness-tracked resource has readiness_status NOT_READY, and READY
otherwise. -/
theorem resolvers_aggregate_characterization (rs : List (String × MonitoredResource)) :
    (HealthStatusServiceResolver.resolve rs = .UNHEALTHY ↔ ∃ p ∈ rs, MonitorTypeEnum.HEALTH ∈ p.2.types ∧ p.2.health_status = some (.health .UNHEALTHY)) ∧
    (HealthStatusServiceResolver.resolve rs = .HEALTHY ↔ ¬ ∃ p ∈ rs, MonitorTypeEnum.HEALTH ∈ p.2.types ∧ p.2.health_status = some (.health .UNHEALTHY)) ∧
    (ReadinessStatusServiceResolver.resolve rs = .NOT_READY ↔ ∃ p ∈ rs, MonitorTypeEnum.READINESS ∈ p.2.types ∧ p.2.readiness_status = some (.readiness .NOT_READY)) ∧
    (ReadinessStatusServiceResolver.resolve rs = .READY ↔ ¬ ∃ p ∈ rs, MonitorTypeEnum.READINESS ∈ p.2.types ∧ p.2.readiness_status = some (.readiness .NOT_READY)) := by
  refine ⟨resolve_health_unhealthy_iff rs, ?_, resolve_readiness_notready_iff rs, ?_⟩
  · constructor
    · intro hH hex
      have hU := (resolve_health_unhealthy_iff rs).mpr hex
      rw [hH] at hU
      exact HealthStatusEnum.noConfusion hU
    · intro hnex
      rcases resolve_health_values rs with h | h
      · exact h
      · exact absurd ((resolve_health_unhealthy_iff rs).mp h) hnex
  · constructor
    · intro hR hex
      have hN := (resolve_readiness_notready_iff rs).mpr hex
      rw [hR] at hN
      exact ReadinessStatusEnum.noConfusion hN
    · intro hnex
      rcases resolve_readiness_values rs with h | h
      · exact h
      · exact absurd ((resolve_readiness_notready_iff rs).mp h) hnex

/-- C2 (code bug witness): on a freshly constructed `MonitoredService`,
`get_health_status()` returns the initialized UNKNOWN, but
`get_readiness_status()` finds no value at all — `__init__` assigned the
initial UNKNOWN to the attribute `_readiness_resolver` instead of
`_readiness_status` (`service.py` line 105), so the read raises
`AttributeError` (modelled as `none`). -/
theorem fresh_registry_readiness_read_fails :
    MonitoredService.init.get_readiness_status = none ∧
    MonitoredService.init.get_health_status = HealthStatusEnum.UNKNOWN :=
  ⟨rfl, rfl⟩

/-- C5: registering `("db1", HEALTH, DATABASE, HEALTHY)` on a fresh registry
immediately recomputes the aggregate, so `get_health_status()` returns
HEALTHY; pushing UNHEALTHY through the db1 handle flips it to UNHEALTHY, and
pushing HEALTHY again flips it back. -/
theorem register_push_db1_end_to_end :
    db1HealthyService.get_health_status = .HEALTHY ∧
    ((db1HealthyService.handle_status_update { identifier := "db1", monitor_type := MonitorTypeEnum.HEALTH.value, status := .health .UNHEALTHY }).1).get_health_status = .UNHEALTHY ∧
    (((db1HealthyService.handle_status_update { identifier := "db1", monitor_type := MonitorTypeEnum.HEALTH.value, status := .health .UNHEALTHY }).1.handle_status_update { identifier := "db1", monitor_type := MonitorTypeEnum.HEALTH.value, status := .health .HEALTHY }).1).get_health_status = .HEALTHY := by
  decide

/-- C7 counterexample: a status update for the never-registered identifier
`ghost` that carries a kind/status mismatch fails with the mismatch error,
not with `UnknownResource` — validation runs before the registration check,
so the claim as stated (every unknown-identifier update fails with
`UnknownResource`) is false. -/
theorem unknown_resource_claim_counterexample :
    lookupRes MonitoredService.init.monitored_resources "ghost" = none ∧
    (MonitoredService.init.handle_status_update { identifier := "ghost", monitor_type := MonitorTypeEnum.HEALTH.value, status := .readiness .READY }).2 = some .statusKindMismatch ∧
    MonitoredError.statusKindMismatch ≠ MonitoredError.unknownResource := by
  decide

/-- C7 (amended): every status update that passes the kind/status validation
and whose identifier has no registered resource makes the internal handler
fail with `UnknownResource`, leaving the state unchanged. -/
theorem unknown_resource_on_unregistered_update (s : MonitoredService)
    (u : MonitoredStatusUpdate) (k : MonitorTypeEnum)
    (hv : MonitoredService.validate_association_of_type_and_status u.monitor_type u.status = .ok k)
    (hl : lookupRes s.monitored_resources u.identifier = none) :
    s.handle_status_update u = (s, some .unknownResource) :=
  handle_unknown_eq s u k hv hl

/-- Witness for the amended C7 at a concrete input. -/
theorem unknown_resource_on_unregistered_update_witness :
    MonitoredService.init.handle_status_update { identifier := "ghost", monitor_type := MonitorTypeEnum.HEALTH.value, status := .health .HEALTHY } = (MonitoredService.init, some .unknownResource) :=
  unknown_resource_on_unregistered_update MonitoredService.init
    { identifier := "ghost", monitor_type := MonitorTypeEnum.HEALTH.value, status := .health .HEALTHY }
    .HEALTH (by decide) (by decide)

/-- C9: although the two status enums share the string values of UNKNOWN and
DISABLED, validation checks the runtime enum class: any `ReadinessStatusEnum`
member under monitor kind HEALTH fails with the kind/status mismatch error on
both register and push, and symmetrically any `HealthStatusEnum` member under
READINESS, even for the members whose string value also belongs to the other
enum. -/
theorem status_enum_runtime_type_discrimination :
    (∀ r : ReadinessStatusEnum, MonitoredService.validate_association_of_type_and_status MonitorTypeEnum.HEALTH.value (.readiness r) = .error .statusKindMismatch) ∧
    (∀ h : HealthStatusEnum, MonitoredService.validate_association_of_type_and_status MonitorTypeEnum.READINESS.value (.health h) = .error .statusKindMismatch) ∧
    (StatusUnion.readiness .UNKNOWN).value ∈ HealthStatusEnum.values ∧
    (StatusUnion.readiness .DISABLED).value ∈ HealthStatusEnum.values ∧
    (StatusUnion.health .UNKNOWN).value ∈ ReadinessStatusEnum.values ∧
    (StatusUnion.health .DISABLED).value ∈ ReadinessStatusEnum.values ∧
    (∀ (s : MonitoredService) (rt : MonitorResourceTypeEnum) (id : String) (r : ReadinessStatusEnum), (s.register_monitored_resource MonitorTypeEnum.HEALTH.value rt id (.readiness r)).2 = some .statusKindMismatch) ∧
    (∀ (s : MonitoredService) (id : String) (r : ReadinessStatusEnum), (s.handle_status_update { identifier := id, monitor_type := MonitorTypeEnum.HEALTH.value, status := .readiness r }).2 = some .statusKindMismatch) ∧
    (∀ (s : MonitoredService) (rt : MonitorResourceTypeEnum) (id : String) (h : HealthStatusEnum), (s.register_monitored_resource MonitorTypeEnum.READINESS.value rt id (.health h)).2 = some .statusKindMismatch) ∧
    (∀ (s : MonitoredService) (id : String) (h : HealthStatusEnum), (s.handle_status_update { identifier := id, monitor_type := MonitorTypeEnum.READINESS.value, status := .health h }).2 = some .statusKindMismatch) := by
  have hv1 : ∀ r : ReadinessStatusEnum, MonitoredService.validate_association_of_type_and_status MonitorTypeEnum.HEALTH.value (.readiness r) = .error .statusKindMismatch := by
    intro r
    cases r <;> decide
  have hv2 : ∀ h : HealthStatusEnum, MonitoredService.validate_association_of_type_and_status MonitorTypeEnum.READINESS.value (.health h) = .error .statusKindMismatch := by
    intro h
    cases h <;> decide
  refine ⟨hv1, hv2, by decide, by decide, by decide, by decide, ?_, ?_, ?_, ?_⟩
  · intro s rt id r
    rw [register_validate_error_eq s _ rt id _ _ (hv1 r)]
  · intro s id r
    rw [handle_validate_error_eq s _ _ (hv1 r)]
  · intro s rt id h
    rw [register_validate_error_eq s _ rt id _ _ (hv2 h)]
  · intro s id h
    rw [handle_validate_error_eq s _ _ (hv2 h)]

/-- C3 counterexample: with `("db1", HEALTH)` already registered, calling
register again for `("db1", HEALTH)` but with a `ReadinessStatusEnum` initial
status fails with the kind/status mismatch error, not with
`DuplicateRegistration` — so "fails with DuplicateRegistration regardless of
the initial_status supplied" is false: validation runs first. -/
theorem duplicate_registration_claim_counterexample :
    (lookupRes db1HealthyService.monitored_resources "db1" = some { types := [MonitorTypeEnum.HEALTH], resource_type := .DATABASE, identifier := "db1", health_status := some (.health .HEALTHY), readiness_status := none }) ∧
    MonitorTypeEnum.HEALTH ∈ [MonitorTypeEnum.HEALTH] ∧
    (db1HealthyService.register_monitored_resource MonitorTypeEnum.HEALTH.value MonitorResourceTypeEnum.CACHE "db1" (.readiness .READY)).2 = some .statusKindMismatch ∧
    MonitoredError.statusKindMismatch ≠ MonitoredError.duplicateRegistration := by
  decide

/-- C3 (amended): re-registering an already-registered `(identifier, kind)`
pair fails with `DuplicateRegistration` for every resource_kind and every
initial_status that is valid for that monitor kind (an initial_status of the
wrong enum type fails earlier with the kind/status mismatch), and the state
is unchanged; registering an existing identifier under a not-yet-registered
kind succeeds and merges: the stored resource afterwards carries the old
kinds plus the new one, the new kind's status field holds the supplied
initial status, and the other status field is untouched. -/
theorem duplicate_registration_and_merge :
    (∀ (s : MonitoredService) (mt : String) (rt : MonitorResourceTypeEnum) (id : String) (st : StatusUnion) (k : MonitorTypeEnum) (r : MonitoredResource),
        MonitoredService.validate_association_of_type_and_status mt st = .ok k →
        lookupRes s.monitored_resources id = some r → k ∈ r.types →
        s.register_monitored_resource mt rt id st = (s, some .duplicateRegistration)) ∧
    (∀ (s : MonitoredService) (mt : String) (rt : MonitorResourceTypeEnum) (id : String) (st : StatusUnion) (k : MonitorTypeEnum) (r : MonitoredResource),
        MonitoredService.validate_association_of_type_and_status mt st = .ok k →
        lookupRes s.monitored_resources id = some r → k ∉ r.types →
        (s.register_monitored_resource mt rt id st).2 = none ∧
        ∃ r', lookupRes ((s.register_monitored_resource mt rt id st).1).monitored_resources id = some r' ∧
          r'.types = r.types ++ [k] ∧
          (k = .HEALTH → r'.health_status = some st ∧ r'.readiness_status = r.readiness_status) ∧
          (k = .READINESS → r'.readiness_status = some st ∧ r'.health_status = r.health_status)) := by
  constructor
  · intro s mt rt id st k r hv hl hk
    exact register_duplicate_eq s mt rt id st k r hv hl hk
  · intro s mt rt id st k r hv hl hk
    cases k with
    | HEALTH =>
      rw [register_ok_merge_health_eq s mt rt id st r hv hl hk]
      exact ⟨rfl, { r with types := r.types ++ [.HEALTH], health_status := some st },
        lookupRes_setEntry_self _ _ _, rfl, fun _ => ⟨rfl, rfl⟩,
        fun h => MonitorTypeEnum.noConfusion h⟩
    | READINESS =>
      rw [register_ok_merge_readiness_eq s mt rt id st r hv hl hk]
      exact ⟨rfl, { r with types := r.types ++ [.READINESS], readiness_status := some st },
        lookupRes_setEntry_self _ _ _, rfl, fun h => MonitorTypeEnum.noConfusion h,
        fun _ => ⟨rfl, rfl⟩⟩

/-- Witness for the amended C3 at concrete inputs: a HEALTH re-registration
of db1 with a valid health status is rejected as a duplicate, and a
READINESS registration of the same identifier succeeds. -/
theorem duplicate_registration_and_merge_witness :
    db1HealthyService.register_monitored_resource MonitorTypeEnum.HEALTH.value MonitorResourceTypeEnum.DATABASE "db1" (.health .UNHEALTHY) = (db1HealthyService, some .duplicateRegistration) ∧
    (db1HealthyService.register_monitored_resource MonitorTypeEnum.READINESS.value MonitorResourceTypeEnum.DATABASE "db1" (.readiness .READY)).2 = none := by
  constructor
  · exact duplicate_registration_and_merge.1 db1HealthyService _ _ _ _ .HEALTH
      { types := [MonitorTypeEnum.HEALTH], resource_type := .DATABASE, identifier := "db1", health_status := some (.health .HEALTHY), readiness_status := none }
      (by decide) (by decide) (by decide)
  · exact (duplicate_registration_and_merge.2 db1HealthyService _ _ _ _ .READINESS
      { types := [MonitorTypeEnum.HEALTH], resource_type := .DATABASE, identifier := "db1", health_status := some (.health .HEALTHY), readiness_status := none }
      (by decide) (by decide) (by decide)).1

/-- C4: whenever register or the internal status-update handler fails with
any of the errors, the whole registry state — resource map, kind sets, status
fields, both cached aggregates, and issued subjects — is exactly the state
before the call. -/
theorem errors_leave_state_unchanged :
    (∀ (s s' : MonitoredService) (mt : String) (rt : MonitorResourceTypeEnum) (id : String) (st : StatusUnion) (e : MonitoredError),
        s.register_monitored_resource mt rt id st = (s', some e) → s' = s) ∧
    (∀ (s s' : MonitoredService) (u : MonitoredStatusUpdate) (e : MonitoredError),
        s.handle_status_update u = (s', some e) → s' = s) :=
  ⟨fun s s' mt rt id st e h => register_raise_eq s s' mt rt id st e h,
   fun s s' u e h => handle_raise_eq s s' u e h⟩

/-- Witness for C4 at concrete inputs: a register call with an unsupported
monitor kind and an update for an unknown identifier both leave the fresh
registry unchanged. -/
theorem errors_leave_state_unchanged_witness :
    (MonitoredService.init.register_monitored_resource "bogus" MonitorResourceTypeEnum.DATABASE "x" (.health .HEALTHY)).1 = MonitoredService.init ∧
    (MonitoredService.init.handle_status_update { identifier := "ghost", monitor_type := MonitorTypeEnum.HEALTH.value, status := .health .HEALTHY }).1 = MonitoredService.init := by
  constructor
  · exact errors_leave_state_unchanged.1 MonitoredService.init _ "bogus" MonitorResourceTypeEnum.DATABASE "x" (.health .HEALTHY) .invalidMonitorKind (by decide)
  · exact errors_leave_state_unchanged.2 MonitoredService.init _ { identifier := "ghost", monitor_type := MonitorTypeEnum.HEALTH.value, status := .health .HEALTHY } .unknownResource (by decide)

/-- C6: in every state reachable from a fresh registry through register calls
and status updates pushed through the issued subjects, every stored resource
has its health_status present iff HEALTH is among its kinds, its
readiness_status present iff READINESS is among its kinds, and a non-empty
kind set. -/
theorem reachable_resource_invariant :
    ∀ (s : MonitoredService), MonitoredService.Reachable s →
      ∀ id r, lookupRes s.monitored_resources id = some r → goodResource r := by
  intro s hreach
  have hinv : InvS s := by
    induction hreach with
    | init => exact invS_init
    | reg s₀ mt rt id st _ ih => exact invS_register s₀ mt rt id st ih
    | push s₀ id k st _ hs ih => exact invS_push s₀ id k st ih hs
  exact hinv.1

/-- Witness for C6 at a concrete reachable state: the db1 resource after one
HEALTH registration satisfies the invariant. -/
theorem reachable_resource_invariant_witness :
    goodResource { types := [MonitorTypeEnum.HEALTH], resource_type := .DATABASE, identifier := "db1", health_status := some (.health .HEALTHY), readiness_status := none } :=
  reachable_resource_invariant db1HealthyService
    (MonitoredService.Reachable.reg MonitoredService.init MonitorTypeEnum.HEALTH.value MonitorResourceTypeEnum.DATABASE "db1" (.health .HEALTHY) MonitoredService.Reachable.init)
    "db1" _ (by decide)

/-- C8: a successful HEALTH status update changes only the cached health
aggregate and the target resource's health_status: the cached readiness
aggregate, every resource's readiness_status and kind set, every other
resource's whole record, and the subject list are unchanged — and
symmetrically for READINESS updates; moreover each resolver ignores
resources that do not carry its kind, so readiness-only resources never
influence the health aggregate and vice versa. -/
theorem monitor_kind_isolation :
    (∀ (s s' : MonitoredService) (u : MonitoredStatusUpdate),
        MonitoredService.validate_association_of_type_and_status u.monitor_type u.status = .ok .HEALTH →
        s.handle_status_update u = (s', none) →
        s'.readiness_status = s.readiness_status ∧
        s'.subjects = s.subjects ∧
        (∀ id, (lookupRes s'.monitored_resources id).map MonitoredResource.readiness_status = (lookupRes s.monitored_resources id).map MonitoredResource.readiness_status) ∧
        (∀ id, (lookupRes s'.monitored_resources id).map MonitoredResource.types = (lookupRes s.monitored_resources id).map MonitoredResource.types) ∧
        (∀ id, id ≠ u.identifier → lookupRes s'.monitored_resources id = lookupRes s.monitored_resources id)) ∧
    (∀ (s s' : MonitoredService) (u : MonitoredStatusUpdate),
        MonitoredService.validate_association_of_type_and_status u.monitor_type u.status = .ok .READINESS →
        s.handle_status_update u = (s', none) →
        s'.health_status = s.health_status ∧
        s'.subjects = s.subjects ∧
        (∀ id, (lookupRes s'.monitored_resources id).map MonitoredResource.health_status = (lookupRes s.monitored_resources id).map MonitoredResource.health_status) ∧
        (∀ id, (lookupRes s'.monitored_resources id).map MonitoredResource.types = (lookupRes s.monitored_resources id).map MonitoredResource.types) ∧
        (∀ id, id ≠ u.identifier → lookupRes s'.monitored_resources id = lookupRes s.monitored_resources id)) ∧
    (∀ rs : List (String × MonitoredResource), HealthStatusServiceResolver.resolve (rs.filter fun p => decide (MonitorTypeEnum.HEALTH ∈ p.2.types)) = HealthStatusServiceResolver.resolve rs) ∧
    (∀ rs : List (String × MonitoredResource), ReadinessStatusServiceResolver.resolve (rs.filter fun p => decide (MonitorTypeEnum.READINESS ∈ p.2.types)) = ReadinessStatusServiceResolver.resolve rs) := by
  refine ⟨?_, ?_, resolve_health_filter, resolve_readiness_filter⟩
  · intro s s' u hv h
    cases hl : lookupRes s.monitored_resources u.identifier with
    | none =>
      rw [handle_unknown_eq s u .HEALTH hv hl] at h
      simp at h
    | some r =>
      rw [handle_ok_health_eq s u r hv hl] at h
      have hs' : s' = { monitored_resources := setEntry s.monitored_resources u.identifier { r with health_status := some u.status }, health_status := HealthStatusServiceResolver.resolve (setEntry s.monitored_resources u.identifier { r with health_status := some u.status }), readiness_status := s.readiness_status, subjects := s.subjects } := by
        injection h with h1 _
        exact h1.symm
      subst hs'
      refine ⟨rfl, rfl, ?_, ?_, ?_⟩
      · intro id
        by_cases hid : id = u.identifier
        · subst hid
          simp only [lookupRes_setEntry_self, hl]
          rfl
        · simp only [lookupRes_setEntry_ne _ _ _ _ hid]
      · intro id
        by_cases hid : id = u.identifier
        · subst hid
          simp only [lookupRes_setEntry_self, hl]
          rfl
        · simp only [lookupRes_setEntry_ne _ _ _ _ hid]
      · intro id hid
        exact lookupRes_setEntry_ne _ _ _ _ hid
  · intro s s' u hv h
    cases hl : lookupRes s.monitored_resources u.identifier with
    | none =>
      rw [handle_unknown_eq s u .READINESS hv hl] at h
      simp at h
    | some r =>
      rw [handle_ok_readiness_eq s u r hv hl] at h
      have hs' : s' = { monitored_resources := setEntry s.monitored_resources u.identifier { r with readiness_status := some u.status }, health_status := s.health_status, readiness_status := some (ReadinessStatusServiceResolver.resolve (setEntry s.monitored_resources u.identifier { r with readiness_status := some u.status })), subjects := s.subjects } := by
        injection h with h1 _
        exact h1.symm
      subst hs'
      refine ⟨rfl, rfl, ?_, ?_, ?_⟩
      · intro id
        by_cases hid : id = u.identifier
        · subst hid
          simp only [lookupRes_setEntry_self, hl]
          rfl
        · simp only [lookupRes_setEntry_ne _ _ _ _ hid]
      · intro id
        by_cases hid : id = u.identifier
        · subst hid
          simp only [lookupRes_setEntry_self, hl]
          rfl
        · simp only [lookupRes_setEntry_ne _ _ _ _ hid]
      · intro id hid
        exact lookupRes_setEntry_ne _ _ _ _ hid

/-- Witness for C8 at a concrete input: a HEALTH push for db1 leaves the
cached readiness aggregate unchanged. -/
theorem monitor_kind_isolation_witness :
    ((db1HealthyService.handle_status_update { identifier := "db1", monitor_type := MonitorTypeEnum.HEALTH.value, status := .health .UNHEALTHY }).1).readiness_status = db1HealthyService.readiness_status :=
  (monitor_kind_isolation.1 db1HealthyService _
    { identifier := "db1", monitor_type := MonitorTypeEnum.HEALTH.value, status := .health .UNHEALTHY }
    (by decide) (by decide)).1

theorem step_not_health_preserves (s : MonitoredService) (st : MonitorStep)
    (h : (st.kindStr == MonitorTypeEnum.HEALTH.value && ((applyStep s st).2).isNone) = false) :
    ((applyStep s st).1).health_status = s.health_status := by
  by_cases hk : st.kindStr = MonitorTypeEnum.HEALTH.value
  · simp only [hk, beq_self_eq_true, Bool.true_and] at h
    cases ho : (applyStep s st).2 with
    | none =>
      rw [ho] at h
      simp at h
    | some e =>
      cases st with
      | reg mt rt id st' =>
        have heq : s.register_monitored_resource mt rt id st' = ((s.register_monitored_resource mt rt id st').1, some e) := by
          rw [← ho]
          rfl
        rw [show (applyStep s (MonitorStep.reg mt rt id st')).1 = (s.register_monitored_resource mt rt id st').1 from rfl]
        rw [register_raise_eq s _ mt rt id st' e heq]
      | push id mt st' =>
        have heq : s.handle_status_update { identifier := id, monitor_type := mt, status := st' } = ((s.handle_status_update { identifier := id, monitor_type := mt, status := st' }).1, some e) := by
          rw [← ho]
          rfl
        rw [show (applyStep s (MonitorStep.push id mt st')).1 = (s.handle_status_update { identifier := id, monitor_type := mt, status := st' }).1 from rfl]
        rw [handle_raise_eq s _ _ e heq]
  · cases st with
    | reg mt rt id st' =>
      exact register_not_health_preserves s mt rt id st'
        (fun hv => hk (validate_ok_value_eq mt st' .HEALTH hv))
    | push id mt st' =>
      exact handle_not_health_preserves s { identifier := id, monitor_type := mt, status := st' }
        (fun hv => hk (validate_ok_value_eq mt st' .HEALTH hv))

theorem noSuccessfulHealth_preserves (steps : List MonitorStep) :
    ∀ s : MonitoredService, noSuccessfulHealthStep s steps = true →
      (runSteps s steps).health_status = s.health_status := by
  induction steps with
  | nil =>
    intro s _
    rfl
  | cons st rest ih =>
    intro s hno
    simp only [noSuccessfulHealthStep, Bool.and_eq_true, Bool.not_eq_true'] at hno
    obtain ⟨h1, h2⟩ := hno
    rw [show runSteps s (st :: rest) = runSteps (applyStep s st).1 rest from rfl]
    rw [ih _ h2]
    exact step_not_health_preserves s st h1

/-- C10: a fresh registry's `get_health_status()` returns UNKNOWN (the value
set by the constructor), even though the resolver's default over the empty
resource collection is HEALTHY, and it stays UNKNOWN along any interaction
sequence that contains no successful HEALTH-kind registration or HEALTH-kind
status update. -/
theorem fresh_health_unknown_until_health_event :
    MonitoredService.init.get_health_status = HealthStatusEnum.UNKNOWN ∧
    HealthStatusServiceResolver.resolve MonitoredService.init.monitored_resources = HealthStatusEnum.HEALTHY ∧
    ∀ steps : List MonitorStep, noSuccessfulHealthStep MonitoredService.init steps = true →
      (runSteps MonitoredService.init steps).get_health_status = HealthStatusEnum.UNKNOWN := by
  refine ⟨rfl, rfl, ?_⟩
  intro steps h
  exact noSuccessfulHealth_preserves steps MonitoredService.init h

/-- Witness for C10: after a readiness registration and a readiness push the
health aggregate still reads UNKNOWN. -/
theorem fresh_health_unknown_until_health_event_witness :
    (runSteps MonitoredService.init [MonitorStep.reg MonitorTypeEnum.READINESS.value MonitorResourceTypeEnum.APPLICATION "app" (.readiness .NOT_READY), MonitorStep.push "app" MonitorTypeEnum.READINESS.value (.readiness .READY)]).get_health_status = HealthStatusEnum.UNKNOWN :=
  fresh_health_unknown_until_health_event.2.2 _ (by decide)
